import Mathlib

/-!
Shallow embedding of `nifipy/components.py`, a client library that drives an
Apache NiFi server over its REST API.  The remote server is modelled as a
`Server`: a collection of pure response functions (what `response.json()`
projects to, the status code and text of a POST, ...).  Every library
operation is embedded as a pure function that returns its result together
with the list of HTTP requests it emits, in order.  `time.sleep` calls are
modelled as no-ops (they emit no requests and have no observable effect in
this model); logging via `LOGGER` is likewise dropped, while `print` output
is tracked explicitly because the spec talks about it.
-/

namespace Nifipy

/-- An HTTP request emitted by the library: the four transport verbs of
`NifiConnection` (`_get`, `_put` with a body, `_post` with a body, `_upload`
with a file name). -/
inductive Request where
  | get : String → Request
  | put : String → String → Request
  | post : String → String → Request
  | upload : String → String → Request
deriving DecidableEq, Repr

/-- True for the write verbs (PUT, POST, multipart upload); false for GET. -/
def is_write : Request → Bool
  | Request.get _ => false
  | Request.put _ _ => true
  | Request.post _ _ => true
  | Request.upload _ _ => true

/-- True exactly for GET requests (the reads). -/
def is_get : Request → Bool
  | Request.get _ => true
  | _ => false

/-- The JSON fields of a component-info response that the library ever reads:
`component.id`, `component.name`, `component.state`, `revision.version` and
`component.referencingComponents` (each entry projected to its
`component.id` and `component.referenceType`). -/
structure Info where
  id : String
  name : String
  state : String
  version : Int
  referencingComponents : List (String × String)
deriving DecidableEq, Repr

/-- A pure model of the remote NiFi server (the mock transport of the spec's
testable properties): `info url` is the JSON a GET on `url` returns,
projected to the fields the library reads; `status url body` and
`text url body` are the status code and text of a POST of `body` to `url`;
`listing url` is the list of `component.id` entries under
`controllerServices` in the response to a listing GET; `uploadText url` is
the response text of a multipart template upload to `url`. -/
structure Server where
  info : String → Info
  status : String → String → Nat
  text : String → String → String
  listing : String → List String
  uploadText : String → String

/-- Outcome of a Python method call: `ret` is `.error e` when the call raises
an exception `e` and `.ok v` when it returns `v` normally; `trace` lists the
HTTP requests emitted, in order; `printed` lists the `print` output. -/
structure PyResult (α : Type) where
  ret : Except String α
  trace : List Request
  printed : List String
deriving Repr

/-- Module-level constant `BASE`. -/
def BASE : String := "Base"

/-- Module-level constant `PROCESSOR`. -/
def PROCESSOR : String := "Processor"

/-- Module-level constant `FLOW`. -/
def FLOW : String := "Flow"

/-- Module-level constant `CONTROLLER_SERVICE`. -/
def CONTROLLER_SERVICE : String := "Controller Service"

/-- Module-level constant `CONTROLLER_SERVICES`. -/
def CONTROLLER_SERVICES : String := "Controller Services"

/-- Module-level constant `PROCESS_GROUP`. -/
def PROCESS_GROUP : String := "Process Group"

/-- Module-level constant `TEMPLATE`. -/
def TEMPLATE : String := "Template"

/-- One token of a Python format string: either a literal piece or a
placeholder `\x7bname\x7d` to be substituted by `str.format`. -/
inductive FmtTok where
  | lit : String → FmtTok
  | var : String → FmtTok
deriving DecidableEq, Repr

/-- Python `str.format` on a parsed format string: each literal token is
copied and each placeholder is replaced by the value `env` assigns to its
name (every template below is formatted with all its placeholders
supplied, so missing names do not arise). -/
def render (env : String → String) : List FmtTok → String
  | [] => ""
  | FmtTok.lit s :: rest => s ++ render env rest
  | FmtTok.var v :: rest => env v ++ render env rest

/-- The class attribute `NifiConnection.COMPONENT_ENDPOINT_TEMPLATES`, each
template string parsed into its `str.format` tokens.  For example the
`PROCESSOR` entry is the literal
`"\x7burl_base\x7d/nifi-api/processors/\x7bcomponent_id\x7d"`. -/
def COMPONENT_ENDPOINT_TEMPLATES : String → List FmtTok
  | "Base" => [FmtTok.var "url_base", FmtTok.lit "/nifi-api"]
  | "Processor" =>
      [FmtTok.var "url_base", FmtTok.lit "/nifi-api/processors/",
       FmtTok.var "component_id"]
  | "Controller Service" =>
      [FmtTok.var "url_base", FmtTok.lit "/nifi-api/controller-services/",
       FmtTok.var "component_id"]
  | "Flow" =>
      [FmtTok.var "url_base", FmtTok.lit "/nifi-api/flow/process-groups/",
       FmtTok.var "component_id", FmtTok.lit "/"]
  | "Process Group" =>
      [FmtTok.var "url_base", FmtTok.lit "/nifi-api/process-groups/",
       FmtTok.var "component_id", FmtTok.lit "/"]
  | "Controller Services" =>
      [FmtTok.var "url_base", FmtTok.lit "/nifi-api/flow/process-groups/",
       FmtTok.var "process_group", FmtTok.lit "/", FmtTok.var "subpath"]
  | "Template" =>
      [FmtTok.var "url_base", FmtTok.lit "/nifi-api/templates/",
       FmtTok.var "component_id", FmtTok.lit "/"]
  | _ => []

/-- The URL computed in `NifiComponent.__init__`:
`self.template.format(url_base=self.url_base, component_id=component_id)`. -/
def nifi_component_url (component_type url_base component_id : String) : String :=
  render
    (fun v =>
      if v = "url_base" then url_base
      else if v = "component_id" then component_id
      else "")
    (COMPONENT_ENDPOINT_TEMPLATES component_type)

/-- The connection state a component keeps: only `url_base` is consulted by
the embedded operations (authentication is unimplemented in the source). -/
structure NifiConnection where
  url_base : String
deriving DecidableEq, Repr

/-- A `Processor` handle: `component_type = "Processor"`. -/
structure Processor where
  nifi_connection : NifiConnection
  component_id : String
  url : String
deriving DecidableEq, Repr

/-- The constructor `Processor(nifi_connection, processor_id)`. -/
def Processor.make (c : NifiConnection) (processor_id : String) : Processor :=
  { nifi_connection := c
    component_id := processor_id
    url := nifi_component_url PROCESSOR c.url_base processor_id }

/-- A `ControllerService` handle: `component_type = "Controller Service"`. -/
structure ControllerService where
  nifi_connection : NifiConnection
  component_id : String
  url : String
deriving DecidableEq, Repr

/-- The constructor `ControllerService(nifi_connection, controller_service_id)`. -/
def ControllerService.make (c : NifiConnection) (controller_service_id : String) :
    ControllerService :=
  { nifi_connection := c
    component_id := controller_service_id
    url := nifi_component_url CONTROLLER_SERVICE c.url_base controller_service_id }

/-- A `FlowProcessGroup` handle: `component_type = "Flow"`. -/
structure FlowProcessGroup where
  nifi_connection : NifiConnection
  component_id : String
  url : String
deriving DecidableEq, Repr

/-- The constructor `FlowProcessGroup(nifi_connection, process_group_id)`. -/
def FlowProcessGroup.make (c : NifiConnection) (process_group_id : String) :
    FlowProcessGroup :=
  { nifi_connection := c
    component_id := process_group_id
    url := nifi_component_url FLOW c.url_base process_group_id }

/-- A `ProcessGroup` handle: `component_type = "Process Group"`. -/
structure ProcessGroup where
  nifi_connection : NifiConnection
  component_id : String
  url : String
deriving DecidableEq, Repr

/-- The constructor `ProcessGroup(nifi_connection, process_group_id)`. -/
def ProcessGroup.make (c : NifiConnection) (process_group_id : String) :
    ProcessGroup :=
  { nifi_connection := c
    component_id := process_group_id
    url := nifi_component_url PROCESS_GROUP c.url_base process_group_id }

/-- A `Template` handle: `component_type = "Template"`. -/
structure Template where
  nifi_connection : NifiConnection
  component_id : String
  url : String
deriving DecidableEq, Repr

/-- The constructor `Template(nifi_connection, template_id)`. -/
def Template.make (c : NifiConnection) (template_id : String) : Template :=
  { nifi_connection := c
    component_id := template_id
    url := nifi_component_url TEMPLATE c.url_base template_id }

/-- `NifiConnection.get_info(url)`: one GET, the response projected to
`Info`. -/
def get_info (srv : Server) (url : String) : Info × List Request :=
  (srv.info url, [Request.get url])

/-- The dictionary `NifiConnection.get_state` builds from a response:
`component.id`, `component.state` and `revision.version`. -/
structure StateRequest where
  id : String
  state : String
  version : Int
deriving DecidableEq, Repr

/-- `NifiConnection.get_state(url)`: one GET via `get_info`, projected to a
`StateRequest`. -/
def get_state (srv : Server) (url : String) : StateRequest × List Request :=
  let r := get_info srv url
  ({ id := r.1.id, state := r.1.state, version := r.1.version }, r.2)

/-- Python `json.dumps` applied to the `request_dict` of `change_state`
(insertion order `component` before `revision`, `id` before `state`): the
string `\x7b"component": \x7b"id": "<id>", "state": "<state>"\x7d,
"revision": \x7b"version": <version>\x7d\x7d`.  The ids and states that
occur contain no characters JSON would escape. -/
def json_dumps_state (r : StateRequest) : String :=
  "\x7b\"component\": \x7b\"id\": \"" ++ r.id ++ "\", \"state\": \"" ++ r.state ++
    "\"\x7d, \"revision\": \x7b\"version\": " ++ toString r.version ++ "\x7d\x7d"

/-- Python truthiness of a string: `""` is falsy, every other string truthy. -/
def py_truthy (s : String) : Bool := s != ""

/-- The guard of `change_state`:
`forbidden_initial_state and request_dict["component"]["state"] == forbidden_initial_state`,
with `None` and the empty string falsy. -/
def forbidden_matches (forbidden_initial_state : Option String) (current : String) : Bool :=
  match forbidden_initial_state with
  | none => false
  | some f => py_truthy f && (current == f)

/-- `NifiConnection.change_state(url, state, forbidden_initial_state)`: read
the current `(id, state, version)` with one GET; if the guard matches, log
and stop; otherwise overwrite `state` in the request dictionary, POST its
JSON dump to the same URL, and `print` the response text when the status is
not 200.  No path raises, so `ret` is always `.ok ()`. -/
def change_state (srv : Server) (url state : String)
    (forbidden_initial_state : Option String) : PyResult Unit :=
  let r := get_state srv url
  let request_dict := r.1
  if forbidden_matches forbidden_initial_state request_dict.state then
    { ret := Except.ok (), trace := r.2, printed := [] }
  else
    let body := json_dumps_state { request_dict with state := state }
    { ret := Except.ok ()
      trace := r.2 ++ [Request.post url body]
      printed := if srv.status url body = 200 then [] else [srv.text url body] }

/-- `NifiConnection.get_referencing_components(url)`: one GET via `get_info`,
then the `referencingComponents` entries projected to `(id, referenceType)`
pairs, and only the pairs whose type is `PROCESSOR` resolved to `Processor`
handles (the list comprehension filters and maps in input order). -/
def get_referencing_components (c : NifiConnection) (srv : Server) (url : String) :
    List Processor × List Request :=
  let r := get_info srv url
  let referencing_component_infos := r.1.referencingComponents
  let referencing_processors :=
    (referencing_component_infos.filter (fun i => i.2 == PROCESSOR)).map
      (fun i => Processor.make c i.1)
  (referencing_processors, r.2)

/-- `Processor.start()`: `change_state(self.url, "RUNNING", "DISABLED")`. -/
def Processor.start (srv : Server) (p : Processor) : PyResult Unit :=
  change_state srv p.url "RUNNING" (some "DISABLED")

/-- `Processor.stop()`: `change_state(self.url, "STOPPED", "DISABLED")`. -/
def Processor.stop (srv : Server) (p : Processor) : PyResult Unit :=
  change_state srv p.url "STOPPED" (some "DISABLED")

/-- `Processor.enable()`: `change_state(self.url, "STOPPED", "RUNNING")`. -/
def Processor.enable (srv : Server) (p : Processor) : PyResult Unit :=
  change_state srv p.url "STOPPED" (some "RUNNING")

/-- `Processor.disable()`: `change_state(self.url, "DISABLED", "RUNNING")`. -/
def Processor.disable (srv : Server) (p : Processor) : PyResult Unit :=
  change_state srv p.url "DISABLED" (some "RUNNING")

/-- `ControllerService.enable()`: `change_state(self.url, "ENABLED")` with no
forbidden initial state. -/
def ControllerService.enable (srv : Server) (cs : ControllerService) : PyResult Unit :=
  change_state srv cs.url "ENABLED" none

/-- `ControllerService.disable()`: `change_state(self.url, "DISABLED")` with
no forbidden initial state. -/
def ControllerService.disable (srv : Server) (cs : ControllerService) : PyResult Unit :=
  change_state srv cs.url "DISABLED" none

/-- `ControllerService.get_referencing_components()`. -/
def ControllerService.get_referencing_components (srv : Server) (cs : ControllerService) :
    List Processor × List Request :=
  Nifipy.get_referencing_components cs.nifi_connection srv cs.url

/-- `ControllerService.stop_referencing_components()`: fetch the referencing
processors, then `stop()` each in order. -/
def ControllerService.stop_referencing_components (srv : Server) (cs : ControllerService) :
    List Request × List String :=
  let r := cs.get_referencing_components srv
  (r.2 ++ (r.1.map (fun p => (p.stop srv).trace)).flatten,
   (r.1.map (fun p => (p.stop srv).printed)).flatten)

/-- `ControllerService.start_referencing_components()`: fetch the referencing
processors, then `start()` each in order. -/
def ControllerService.start_referencing_components (srv : Server) (cs : ControllerService) :
    List Request × List String :=
  let r := cs.get_referencing_components srv
  (r.2 ++ (r.1.map (fun p => (p.start srv).trace)).flatten,
   (r.1.map (fun p => (p.start srv).printed)).flatten)

/-- `ControllerService.restart()`: stop all referencing components, sleep,
disable, sleep, enable, sleep, start all referencing components (the sleeps
are no-ops in this model). -/
def ControllerService.restart (srv : Server) (cs : ControllerService) :
    List Request × List String :=
  let a := cs.stop_referencing_components srv
  let b := cs.disable srv
  let c := cs.enable srv
  let d := cs.start_referencing_components srv
  (a.1 ++ b.trace ++ c.trace ++ d.1, a.2 ++ b.printed ++ c.printed ++ d.2)

/-- The body `FlowProcessGroup.start` builds by string concatenation:
`'\x7b"id": "' + self.component_id + '", "state": "RUNNING"\x7d'`. -/
def flow_start_body (component_id : String) : String :=
  "\x7b\"id\": \"" ++ component_id ++ "\", \"state\": \"RUNNING\"\x7d"

/-- `FlowProcessGroup.start()`: a single direct PUT of the state body to the
component URL (no preceding read). -/
def FlowProcessGroup.start (f : FlowProcessGroup) : List Request :=
  [Request.put f.url (flow_start_body f.component_id)]

/-- `FlowProcessGroup.get_controller_services()`: one GET on the component
URL with the `controller-services` endpoint appended, each returned id
wrapped as a `ControllerService` handle. -/
def FlowProcessGroup.get_controller_services (srv : Server) (f : FlowProcessGroup) :
    List ControllerService × List Request :=
  let url := f.url ++ "controller-services"
  let ids := srv.listing url
  (ids.map (fun i => ControllerService.make f.nifi_connection i), [Request.get url])

/-- `ControllerService.get_name()`: one GET on the component URL, projected
to `component.name`. -/
def ControllerService.get_name (srv : Server) (cs : ControllerService) :
    String × List Request :=
  ((srv.info cs.url).name, [Request.get cs.url])

/-- The loop of `FlowProcessGroup.get_controller_service_by_name`: starting
from `controller_service = None`, overwrite the accumulator with every
service whose `get_name()` equals `name`. -/
def by_name_loop (srv : Server) (name : String) :
    List ControllerService → Option ControllerService → Option ControllerService
  | [], acc => acc
  | cs :: rest, acc =>
      by_name_loop srv name rest
        (if (cs.get_name srv).1 == name then some cs else acc)

/-- `FlowProcessGroup.get_controller_service_by_name(name)`: list the
controller services, then linear-scan them, last match winning; one GET for
the listing and one GET per service (each loop iteration calls
`get_name()`). -/
def FlowProcessGroup.get_controller_service_by_name (srv : Server)
    (f : FlowProcessGroup) (name : String) :
    Option ControllerService × List Request :=
  let r := f.get_controller_services srv
  (by_name_loop srv name r.1 none,
   r.2 ++ r.1.map (fun cs => Request.get cs.url))

/-- Python `os.path.basename` for the slash-separated paths the library is
used with: the part after the last `/`. -/
def basename (p : String) : String :=
  match (p.splitOn "/").getLast? with
  | some s => s
  | none => p

/-- The characters of the literal `<id>`. -/
def id_open : List Char := '<' :: 'i' :: 'd' :: '>' :: []

/-- The characters of the literal `</id>`. -/
def id_close : List Char := '<' :: '/' :: 'i' :: 'd' :: '>' :: []

/-- Greedy search for the closing tag: the largest `k ≤ limit` such that
`</id>` starts at offset `k` of `s` (the regex engine tries the longest
group first and backtracks downwards). -/
def greedy_close (s : List Char) : Nat → Option Nat
  | 0 => if id_close.isPrefixOf s then some 0 else none
  | k + 1 =>
      if id_close.isPrefixOf (s.drop (k + 1)) then some (k + 1)
      else greedy_close s k

/-- Match the regex `<id>(.*)</id>` at the start of `s` (Python `re`
semantics: `.` does not match a newline, `.*` is greedy).  On success,
return the capture group and the total number of characters consumed. -/
def match_id_at (s : List Char) : Option (List Char × Nat) :=
  if id_open.isPrefixOf s then
    let after := s.drop 4
    let limit := (after.takeWhile (fun c => c ≠ '\n')).length
    match greedy_close after limit with
    | some k => some (after.take k, 4 + k + 5)
    | none => none
  else none

/-- The scan of `re.findall`: try a match at each position left to right;
on a match, record the group and continue after the match (non-overlapping);
otherwise advance one character.  `fuel` bounds the recursion and is
initialised to the string length, which suffices because every step consumes
at least one character. -/
def findall_go : Nat → List Char → List (List Char)
  | 0, _ => []
  | _ + 1, [] => []
  | fuel + 1, c :: rest =>
      match match_id_at (c :: rest) with
      | some (g, n) => g :: findall_go fuel ((c :: rest).drop n)
      | none => findall_go fuel rest

/-- `re.findall('<id>(.*)</id>', text)`: the capture groups of all
non-overlapping matches, left to right. -/
def findall_ids (text : String) : List String :=
  (findall_go text.data.length text.data).map (fun l => String.mk l)

/-- `ProcessGroup.upload_template(template_path)`: multipart upload of the
file to the `templates/upload` endpoint, then
`re.findall('<id>(.*)</id>', response.text)[0]` wrapped as a `Template`
handle.  When the response text has no match, the `[0]` index raises
`IndexError`, modelled as `.error`. -/
def upload_template (srv : Server) (pg : ProcessGroup) (template_path : String) :
    PyResult Template :=
  let url := pg.url ++ "templates/upload"
  let tr := [Request.upload url (basename template_path)]
  match findall_ids (srv.uploadText url) with
  | [] => { ret := Except.error "IndexError: list index out of range"
            trace := tr, printed := [] }
  | t :: _ => { ret := Except.ok (Template.make pg.nifi_connection t)
                trace := tr, printed := [] }

end Nifipy

namespace Nifipy

/-! Helper lemmas shared by several claims. -/

/-- The guard of `change_state` never fires when no forbidden initial state
is supplied, or when the supplied one differs from the state read back. -/
theorem forbidden_matches_eq_false (fis : Option String) (current : String)
    (h : ∀ f, fis = some f → current ≠ f) :
    forbidden_matches fis current = false := by
  cases fis with
  | none => rfl
  | some f =>
      have hne := h f rfl
      simp [forbidden_matches, hne]

/-- The guard of `change_state` fires exactly when the supplied forbidden
initial state is nonempty and equals the state read back. -/
theorem forbidden_matches_eq_true (f current : String)
    (hf : f ≠ "") (h : current = f) :
    forbidden_matches (some f) current = true := by
  simp [forbidden_matches, py_truthy, bne_iff_ne, hf, h]

/-- Behaviour of `change_state` when the guard does not fire: one GET, then
one POST of the read-back id and version with the new state. -/
theorem change_state_writes (srv : Server) (url state : String)
    (fis : Option String) (h : ∀ f, fis = some f → (srv.info url).state ≠ f) :
    change_state srv url state fis =
      { ret := Except.ok ()
        trace :=
          [Request.get url,
           Request.post url (json_dumps_state
             { id := (srv.info url).id, state := state,
               version := (srv.info url).version })]
        printed :=
          if srv.status url (json_dumps_state
               { id := (srv.info url).id, state := state,
                 version := (srv.info url).version }) = 200
          then [] else
            [srv.text url (json_dumps_state
               { id := (srv.info url).id, state := state,
                 version := (srv.info url).version })] } := by
  have hg := forbidden_matches_eq_false fis (srv.info url).state h
  simp [change_state, get_state, get_info, hg]

/-- Behaviour of `change_state` when the guard fires: one GET and nothing
else. -/
theorem change_state_skips (srv : Server) (url state f : String)
    (hf : f ≠ "") (h : (srv.info url).state = f) :
    change_state srv url state (some f) =
      { ret := Except.ok (), trace := [Request.get url], printed := [] } := by
  have hg := forbidden_matches_eq_true f (srv.info url).state hf h
  simp [change_state, get_state, get_info, hg]

end Nifipy

namespace Nifipy

/-- C1: when `change_state` is called with no `forbidden_initial_state`, or
with one that does not match the state read back, it issues exactly one GET
(fetching the component's id, state and revision version) followed by
exactly one write, whose payload is the JSON object
`\x7b"component": \x7b"id": <id>, "state": <STATE>\x7d, "revision":
\x7b"version": <n>\x7d\x7d` carrying the version obtained by that read,
unmodified, together with the new state. -/
theorem C1_change_state_read_then_write (srv : Server) (url state : String)
    (fis : Option String)
    (h : ∀ f, fis = some f → (srv.info url).state ≠ f) :
    (change_state srv url state fis).trace =
      [Request.get url,
       Request.post url (json_dumps_state
         { id := (srv.info url).id, state := state,
           version := (srv.info url).version })] := by
  rw [change_state_writes srv url state fis h]

/-- Witness for C1: a concrete server reporting id `p1`, state `STOPPED`,
version `3`; `change_state` with no forbidden initial state emits the GET
followed by the POST carrying version 3 and the new state. -/
def c1_server : Server :=
  { info := fun _ =>
      { id := "p1", name := "proc", state := "STOPPED", version := 3,
        referencingComponents := [] }
    status := fun _ _ => 200
    text := fun _ _ => ""
    listing := fun _ => []
    uploadText := fun _ => "" }

/-- Witness for C1 at a concrete input. -/
theorem C1_witness :
    (change_state c1_server "http://h:9090/nifi-api/processors/p1" "RUNNING" none).trace =
      [Request.get "http://h:9090/nifi-api/processors/p1",
       Request.post "http://h:9090/nifi-api/processors/p1"
         (json_dumps_state { id := "p1", state := "RUNNING", version := 3 })] :=
  C1_change_state_read_then_write c1_server _ "RUNNING" none (fun _ hf => nomatch hf)

/-- C2 (amended): for every URL, target state and supplied nonempty
`forbidden_initial_state`, if the state read back equals it, `change_state`
issues no write at all (the trace holds zero write requests, only the one
GET) and the call returns normally. -/
theorem C2_forbidden_match_skips_write (srv : Server) (url state f : String)
    (hf : f ≠ "") (hs : (srv.info url).state = f) :
    (change_state srv url state (some f)).trace.filter is_write = [] ∧
    (change_state srv url state (some f)).trace = [Request.get url] ∧
    (change_state srv url state (some f)).ret = Except.ok () := by
  rw [change_state_skips srv url state f hf hs]
  exact ⟨rfl, rfl, rfl⟩

/-- Witness for C2 (amended): a concrete server reporting state `DISABLED`;
`change_state` towards `RUNNING` with forbidden initial state `DISABLED`
emits only the GET. -/
def c2_server : Server :=
  { info := fun _ =>
      { id := "p1", name := "proc", state := "DISABLED", version := 3,
        referencingComponents := [] }
    status := fun _ _ => 200
    text := fun _ _ => ""
    listing := fun _ => []
    uploadText := fun _ => "" }

/-- Witness for C2 at a concrete input. -/
theorem C2_witness :
    (change_state c2_server "http://h:9090/nifi-api/processors/p1" "RUNNING"
        (some "DISABLED")).trace.filter is_write = [] ∧
    (change_state c2_server "http://h:9090/nifi-api/processors/p1" "RUNNING"
        (some "DISABLED")).trace = [Request.get "http://h:9090/nifi-api/processors/p1"] ∧
    (change_state c2_server "http://h:9090/nifi-api/processors/p1" "RUNNING"
        (some "DISABLED")).ret = Except.ok () :=
  C2_forbidden_match_skips_write c2_server _ "RUNNING" "DISABLED" (by decide) rfl

/-- A server whose component reports the empty string as its state, as a
counterexample input for the claim that a matching supplied
`forbidden_initial_state` always suppresses the write. -/
def c2_empty_state_server : Server :=
  { info := fun _ =>
      { id := "p1", name := "proc", state := "", version := 3,
        referencingComponents := [] }
    status := fun _ _ => 200
    text := fun _ _ => ""
    listing := fun _ => []
    uploadText := fun _ => "" }

/-- Counterexample for C2 as stated: with the supplied
`forbidden_initial_state = ""` and the state read back also `""` (they are
equal), `change_state` nevertheless issues a write, because Python
truthiness makes the empty string skip the guard entirely. -/
theorem C2_counterexample :
    (c2_empty_state_server.info "http://h:9090/nifi-api/processors/p1").state = "" ∧
    ((change_state c2_empty_state_server "http://h:9090/nifi-api/processors/p1"
        "RUNNING" (some "")).trace.filter is_write).length = 1 := by
  constructor
  · rfl
  · rfl

/-- C5: when the write issued by `change_state` receives a non-200 status,
the call still returns normally (`ret` is `.ok ()`, the model of "no
exception raised and no error value returned"); the response text is
printed and the trace still holds the read and the write. -/
theorem C5_non_200_write_swallowed (srv : Server) (url state : String)
    (fis : Option String)
    (h : ∀ f, fis = some f → (srv.info url).state ≠ f)
    (hstatus : srv.status url (json_dumps_state
        { id := (srv.info url).id, state := state,
          version := (srv.info url).version }) ≠ 200) :
    (change_state srv url state fis).ret = Except.ok () ∧
    (change_state srv url state fis).printed =
      [srv.text url (json_dumps_state
        { id := (srv.info url).id, state := state,
          version := (srv.info url).version })] ∧
    (change_state srv url state fis).trace =
      [Request.get url,
       Request.post url (json_dumps_state
         { id := (srv.info url).id, state := state,
           version := (srv.info url).version })] := by
  rw [change_state_writes srv url state fis h]
  refine ⟨rfl, ?_, rfl⟩
  simp [hstatus]

/-- A concrete server rejecting every POST with status 409. -/
def c5_server : Server :=
  { info := fun _ =>
      { id := "p1", name := "proc", state := "STOPPED", version := 3,
        referencingComponents := [] }
    status := fun _ _ => 409
    text := fun _ _ => "conflict"
    listing := fun _ => []
    uploadText := fun _ => "" }

/-- Witness for C5 at a concrete input: the rejected write is printed and
the call returns normally. -/
theorem C5_witness :
    (change_state c5_server "http://h:9090/nifi-api/processors/p1" "RUNNING" none).ret =
      Except.ok () ∧
    (change_state c5_server "http://h:9090/nifi-api/processors/p1" "RUNNING" none).printed =
      ["conflict"] ∧
    (change_state c5_server "http://h:9090/nifi-api/processors/p1" "RUNNING" none).trace =
      [Request.get "http://h:9090/nifi-api/processors/p1",
       Request.post "http://h:9090/nifi-api/processors/p1"
         (json_dumps_state { id := "p1", state := "RUNNING", version := 3 })] :=
  C5_non_200_write_swallowed c5_server _ "RUNNING" none (fun _ hf => nomatch hf)
    (by decide)

/-- C7: `FlowProcessGroup.start()` emits a single direct PUT whose body sets
the state to `RUNNING` without any preceding read: the whole trace is that
one write, and it holds zero GET requests. -/
theorem C7_flow_start_direct_write (f : FlowProcessGroup) :
    f.start = [Request.put f.url (flow_start_body f.component_id)] ∧
    f.start.filter is_get = [] := by
  exact ⟨rfl, rfl⟩

end Nifipy

namespace Nifipy

/-- Trace of `change_state` under a nonempty forbidden initial state: the
GET alone when the state read back matches, the GET followed by the POST of
the new state under the read-back version otherwise. -/
theorem change_state_some_trace (srv : Server) (url state f : String)
    (hf : f ≠ "") :
    (change_state srv url state (some f)).trace =
      if (srv.info url).state = f then [Request.get url]
      else
        [Request.get url,
         Request.post url (json_dumps_state
           { id := (srv.info url).id, state := state,
             version := (srv.info url).version })] := by
  by_cases h : (srv.info url).state = f
  · rw [change_state_skips srv url state f hf h, if_pos h]
  · rw [change_state_writes srv url state (some f) (fun g hg => by cases hg; exact h),
        if_neg h]

/-- C3: the four `Processor` state methods are `change_state` calls with
exactly the pairs (RUNNING forbidden-from DISABLED) for `start`, (STOPPED
forbidden-from DISABLED) for `stop`, (STOPPED forbidden-from RUNNING) for
`enable` and (DISABLED forbidden-from RUNNING) for `disable`; behaviourally,
each skips its write exactly when the state read back equals its forbidden
initial state, and otherwise posts its target state. -/
theorem C3_processor_state_methods (srv : Server) (p : Processor) :
    (p.start srv = change_state srv p.url "RUNNING" (some "DISABLED") ∧
     p.stop srv = change_state srv p.url "STOPPED" (some "DISABLED") ∧
     p.enable srv = change_state srv p.url "STOPPED" (some "RUNNING") ∧
     p.disable srv = change_state srv p.url "DISABLED" (some "RUNNING")) ∧
    ((p.start srv).trace =
      if (srv.info p.url).state = "DISABLED" then [Request.get p.url]
      else
        [Request.get p.url,
         Request.post p.url (json_dumps_state
           { id := (srv.info p.url).id, state := "RUNNING",
             version := (srv.info p.url).version })]) ∧
    ((p.stop srv).trace =
      if (srv.info p.url).state = "DISABLED" then [Request.get p.url]
      else
        [Request.get p.url,
         Request.post p.url (json_dumps_state
           { id := (srv.info p.url).id, state := "STOPPED",
             version := (srv.info p.url).version })]) ∧
    ((p.enable srv).trace =
      if (srv.info p.url).state = "RUNNING" then [Request.get p.url]
      else
        [Request.get p.url,
         Request.post p.url (json_dumps_state
           { id := (srv.info p.url).id, state := "STOPPED",
             version := (srv.info p.url).version })]) ∧
    ((p.disable srv).trace =
      if (srv.info p.url).state = "RUNNING" then [Request.get p.url]
      else
        [Request.get p.url,
         Request.post p.url (json_dumps_state
           { id := (srv.info p.url).id, state := "DISABLED",
             version := (srv.info p.url).version })]) := by
  refine ⟨⟨rfl, rfl, rfl, rfl⟩, ?_, ?_, ?_, ?_⟩
  · exact change_state_some_trace srv p.url "RUNNING" "DISABLED" (by decide)
  · exact change_state_some_trace srv p.url "STOPPED" "DISABLED" (by decide)
  · exact change_state_some_trace srv p.url "STOPPED" "RUNNING" (by decide)
  · exact change_state_some_trace srv p.url "DISABLED" "RUNNING" (by decide)

/-- C6: `get_referencing_components` keeps exactly the entries whose
reference type is `"Processor"`, in the order the server returned them,
each resolved to a `Processor` handle by id, and issues the single info
GET; every entry of any other type is dropped by the filter. -/
theorem C6_referencing_components_filter (c : NifiConnection) (srv : Server)
    (url : String) :
    (get_referencing_components c srv url).1 =
      (((srv.info url).referencingComponents.filter
          (fun e => e.2 = "Processor")).map (fun e => Processor.make c e.1)) ∧
    ((get_referencing_components c srv url).1.map
        (fun p => p.component_id)).Sublist
      ((srv.info url).referencingComponents.map (fun e => e.1)) ∧
    (get_referencing_components c srv url).2 = [Request.get url] := by
  refine ⟨?_, ?_, rfl⟩
  · show (((srv.info url).referencingComponents.filter
        (fun i => i.2 == PROCESSOR)).map (fun i => Processor.make c i.1)) = _
    congr 1
  · show ((((srv.info url).referencingComponents.filter
        (fun i => i.2 == PROCESSOR)).map (fun i => Processor.make c i.1)).map
          (fun p => p.component_id)).Sublist _
    rw [List.map_map]
    exact ((srv.info url).referencingComponents.filter_sublist).map _

/-- C9: every per-type endpoint template holds the base-URL placeholder and
the component-id placeholder exactly once, and the URL resolved at
construction (for each component type and each constructor of the library)
is the template with the two placeholders substituted; the resolution is a
pure function of the type, base URL and id, computed once at construction
and stored in the immutable `url` field, so resolving again from the same
inputs yields the same URL. -/
theorem C9_url_resolution (base id : String) (c : NifiConnection) :
    ((COMPONENT_ENDPOINT_TEMPLATES PROCESSOR).count (FmtTok.var "url_base") = 1 ∧
     (COMPONENT_ENDPOINT_TEMPLATES PROCESSOR).count (FmtTok.var "component_id") = 1 ∧
     nifi_component_url PROCESSOR base id = base ++ "/nifi-api/processors/" ++ id ∧
     (Processor.make c id).url = nifi_component_url PROCESSOR c.url_base id) ∧
    ((COMPONENT_ENDPOINT_TEMPLATES CONTROLLER_SERVICE).count (FmtTok.var "url_base") = 1 ∧
     (COMPONENT_ENDPOINT_TEMPLATES CONTROLLER_SERVICE).count (FmtTok.var "component_id") = 1 ∧
     nifi_component_url CONTROLLER_SERVICE base id =
       base ++ "/nifi-api/controller-services/" ++ id ∧
     (ControllerService.make c id).url =
       nifi_component_url CONTROLLER_SERVICE c.url_base id) ∧
    ((COMPONENT_ENDPOINT_TEMPLATES FLOW).count (FmtTok.var "url_base") = 1 ∧
     (COMPONENT_ENDPOINT_TEMPLATES FLOW).count (FmtTok.var "component_id") = 1 ∧
     nifi_component_url FLOW base id =
       base ++ "/nifi-api/flow/process-groups/" ++ id ++ "/" ∧
     (FlowProcessGroup.make c id).url = nifi_component_url FLOW c.url_base id) ∧
    ((COMPONENT_ENDPOINT_TEMPLATES PROCESS_GROUP).count (FmtTok.var "url_base") = 1 ∧
     (COMPONENT_ENDPOINT_TEMPLATES PROCESS_GROUP).count (FmtTok.var "component_id") = 1 ∧
     nifi_component_url PROCESS_GROUP base id =
       base ++ "/nifi-api/process-groups/" ++ id ++ "/" ∧
     (ProcessGroup.make c id).url = nifi_component_url PROCESS_GROUP c.url_base id) ∧
    ((COMPONENT_ENDPOINT_TEMPLATES TEMPLATE).count (FmtTok.var "url_base") = 1 ∧
     (COMPONENT_ENDPOINT_TEMPLATES TEMPLATE).count (FmtTok.var "component_id") = 1 ∧
     nifi_component_url TEMPLATE base id =
       base ++ "/nifi-api/templates/" ++ id ++ "/" ∧
     (Template.make c id).url = nifi_component_url TEMPLATE c.url_base id) := by
  refine ⟨⟨by decide, by decide, ?_, rfl⟩, ⟨by decide, by decide, ?_, rfl⟩,
    ⟨by decide, by decide, ?_, rfl⟩, ⟨by decide, by decide, ?_, rfl⟩,
    ⟨by decide, by decide, ?_, rfl⟩⟩
  · show base ++ ("/nifi-api/processors/" ++ (id ++ "")) = _
    rw [String.append_empty, ← String.append_assoc]
  · show base ++ ("/nifi-api/controller-services/" ++ (id ++ "")) = _
    rw [String.append_empty, ← String.append_assoc]
  · show base ++ ("/nifi-api/flow/process-groups/" ++ (id ++ ("/" ++ ""))) = _
    rw [String.append_empty, ← String.append_assoc, ← String.append_assoc]
  · show base ++ ("/nifi-api/process-groups/" ++ (id ++ ("/" ++ ""))) = _
    rw [String.append_empty, ← String.append_assoc, ← String.append_assoc]
  · show base ++ ("/nifi-api/templates/" ++ (id ++ ("/" ++ ""))) = _
    rw [String.append_empty, ← String.append_assoc, ← String.append_assoc]

end Nifipy

namespace Nifipy

/-- The linear scan of `get_controller_service_by_name` returns the last
service whose name matches, and the accumulator when none matches. -/
theorem by_name_loop_last (srv : Server) (name : String) :
    ∀ (l : List ControllerService) (acc : Option ControllerService),
      by_name_loop srv name l acc =
        match (l.filter (fun cs => (cs.get_name srv).1 == name)).getLast? with
        | none => acc
        | some x => some x := by
  intro l
  induction l with
  | nil => intro acc; rfl
  | cons cs rest ih =>
      intro acc
      simp only [by_name_loop, List.filter_cons]
      rw [ih]
      by_cases h : ((cs.get_name srv).1 == name) = true
      · rw [if_pos h, if_pos h, List.getLast?_cons]
        cases hfr : (rest.filter (fun x => (x.get_name srv).1 == name)).getLast? with
        | none => rfl
        | some y => rfl
      · rw [if_neg h, if_neg h]

/-- C8: when the listing holds two or more controller services whose
`get_name()` equals the requested name, `get_controller_service_by_name`
returns the last matching entry in listing order (the scan overwrites
earlier matches and does not stop at the first). -/
theorem C8_by_name_last_match_wins (srv : Server) (f : FlowProcessGroup)
    (name : String)
    (h2 : 2 ≤ ((f.get_controller_services srv).1.filter
        (fun cs => (cs.get_name srv).1 == name)).length) :
    (f.get_controller_service_by_name srv name).1 =
      ((f.get_controller_services srv).1.filter
        (fun cs => (cs.get_name srv).1 == name)).getLast? := by
  show by_name_loop srv name (f.get_controller_services srv).1 none = _
  rw [by_name_loop_last srv name (f.get_controller_services srv).1 none]
  cases hfr : ((f.get_controller_services srv).1.filter
      (fun cs => (cs.get_name srv).1 == name)).getLast? with
  | none => rfl
  | some y => rfl

/-- A concrete server for the C8 witness: the listing returns two service
ids and both services report the same name `shared`. -/
def c8_server : Server :=
  { info := fun url =>
      if url = "http://h:9090/nifi-api/controller-services/cs1" then
        { id := "cs1", name := "shared", state := "ENABLED", version := 1,
          referencingComponents := [] }
      else
        { id := "cs2", name := "shared", state := "ENABLED", version := 2,
          referencingComponents := [] }
    status := fun _ _ => 200
    text := fun _ _ => ""
    listing := fun _ => ["cs1", "cs2"]
    uploadText := fun _ => "" }

/-- Witness for C8 at a concrete input: with two services both named
`shared`, the lookup returns the second (last) one. -/
theorem C8_witness :
    2 ≤ (((FlowProcessGroup.make { url_base := "http://h:9090" } "root").get_controller_services
        c8_server).1.filter
          (fun cs => (cs.get_name c8_server).1 == "shared")).length ∧
    ((FlowProcessGroup.make { url_base := "http://h:9090" } "root").get_controller_service_by_name
        c8_server "shared").1 =
      (((FlowProcessGroup.make { url_base := "http://h:9090" } "root").get_controller_services
        c8_server).1.filter
          (fun cs => (cs.get_name c8_server).1 == "shared")).getLast? :=
  ⟨by decide, C8_by_name_last_match_wins c8_server _ "shared" (by decide)⟩

end Nifipy

namespace Nifipy

/-- Trace of `change_state` with no forbidden initial state: always the GET
followed by the POST of the new state under the read-back version. -/
theorem change_state_none_trace (srv : Server) (url state : String) :
    (change_state srv url state none).trace =
      [Request.get url,
       Request.post url (json_dumps_state
         { id := (srv.info url).id, state := state,
           version := (srv.info url).version })] := by
  rw [change_state_writes srv url state none (fun _ hf => nomatch hf)]

/-- C4: for a controller service whose referencing-components list resolves
to two processors, neither of which is in state DISABLED, `restart()` emits
its writes in exactly this order: stop on both referencing processors, then
disable of the service, then enable of the service, then start on both
referencing processors — with no interleaving of the stop/start phases with
the disable/enable phase. -/
theorem C4_restart_phase_order (srv : Server) (cs : ControllerService)
    (i1 i2 : String)
    (href : (srv.info cs.url).referencingComponents.filter
        (fun e => e.2 == PROCESSOR) = [(i1, "Processor"), (i2, "Processor")])
    (h1 : ¬ (srv.info (Processor.make cs.nifi_connection i1).url).state = "DISABLED")
    (h2 : ¬ (srv.info (Processor.make cs.nifi_connection i2).url).state = "DISABLED") :
    (cs.restart srv).1.filter is_write =
      [Request.post (Processor.make cs.nifi_connection i1).url
         (json_dumps_state
           { id := (srv.info (Processor.make cs.nifi_connection i1).url).id
             state := "STOPPED"
             version := (srv.info (Processor.make cs.nifi_connection i1).url).version }),
       Request.post (Processor.make cs.nifi_connection i2).url
         (json_dumps_state
           { id := (srv.info (Processor.make cs.nifi_connection i2).url).id
             state := "STOPPED"
             version := (srv.info (Processor.make cs.nifi_connection i2).url).version }),
       Request.post cs.url
         (json_dumps_state
           { id := (srv.info cs.url).id
             state := "DISABLED"
             version := (srv.info cs.url).version }),
       Request.post cs.url
         (json_dumps_state
           { id := (srv.info cs.url).id
             state := "ENABLED"
             version := (srv.info cs.url).version }),
       Request.post (Processor.make cs.nifi_connection i1).url
         (json_dumps_state
           { id := (srv.info (Processor.make cs.nifi_connection i1).url).id
             state := "RUNNING"
             version := (srv.info (Processor.make cs.nifi_connection i1).url).version }),
       Request.post (Processor.make cs.nifi_connection i2).url
         (json_dumps_state
           { id := (srv.info (Processor.make cs.nifi_connection i2).url).id
             state := "RUNNING"
             version := (srv.info (Processor.make cs.nifi_connection i2).url).version })] := by
  have hrefs : (cs.get_referencing_components srv).1 =
      [Processor.make cs.nifi_connection i1, Processor.make cs.nifi_connection i2] := by
    show ((srv.info cs.url).referencingComponents.filter
        (fun i => i.2 == PROCESSOR)).map (fun i => Processor.make cs.nifi_connection i.1) = _
    rw [href]
    rfl
  have hrt : (cs.get_referencing_components srv).2 = [Request.get cs.url] := rfl
  have hs1 : ((Processor.make cs.nifi_connection i1).stop srv).trace =
      [Request.get (Processor.make cs.nifi_connection i1).url,
       Request.post (Processor.make cs.nifi_connection i1).url
         (json_dumps_state
           { id := (srv.info (Processor.make cs.nifi_connection i1).url).id
             state := "STOPPED"
             version := (srv.info (Processor.make cs.nifi_connection i1).url).version })] := by
    show (change_state srv (Processor.make cs.nifi_connection i1).url "STOPPED"
        (some "DISABLED")).trace = _
    rw [change_state_some_trace srv _ "STOPPED" "DISABLED" (by decide), if_neg h1]
  have hs2 : ((Processor.make cs.nifi_connection i2).stop srv).trace =
      [Request.get (Processor.make cs.nifi_connection i2).url,
       Request.post (Processor.make cs.nifi_connection i2).url
         (json_dumps_state
           { id := (srv.info (Processor.make cs.nifi_connection i2).url).id
             state := "STOPPED"
             version := (srv.info (Processor.make cs.nifi_connection i2).url).version })] := by
    show (change_state srv (Processor.make cs.nifi_connection i2).url "STOPPED"
        (some "DISABLED")).trace = _
    rw [change_state_some_trace srv _ "STOPPED" "DISABLED" (by decide), if_neg h2]
  have hr1 : ((Processor.make cs.nifi_connection i1).start srv).trace =
      [Request.get (Processor.make cs.nifi_connection i1).url,
       Request.post (Processor.make cs.nifi_connection i1).url
         (json_dumps_state
           { id := (srv.info (Processor.make cs.nifi_connection i1).url).id
             state := "RUNNING"
             version := (srv.info (Processor.make cs.nifi_connection i1).url).version })] := by
    show (change_state srv (Processor.make cs.nifi_connection i1).url "RUNNING"
        (some "DISABLED")).trace = _
    rw [change_state_some_trace srv _ "RUNNING" "DISABLED" (by decide), if_neg h1]
  have hr2 : ((Processor.make cs.nifi_connection i2).start srv).trace =
      [Request.get (Processor.make cs.nifi_connection i2).url,
       Request.post (Processor.make cs.nifi_connection i2).url
         (json_dumps_state
           { id := (srv.info (Processor.make cs.nifi_connection i2).url).id
             state := "RUNNING"
             version := (srv.info (Processor.make cs.nifi_connection i2).url).version })] := by
    show (change_state srv (Processor.make cs.nifi_connection i2).url "RUNNING"
        (some "DISABLED")).trace = _
    rw [change_state_some_trace srv _ "RUNNING" "DISABLED" (by decide), if_neg h2]
  simp only [ControllerService.restart, ControllerService.stop_referencing_components,
    ControllerService.start_referencing_components, ControllerService.disable,
    ControllerService.enable, hrefs, hrt, List.map_cons, List.map_nil,
    List.flatten_cons, List.flatten_nil, hs1, hs2, hr1, hr2,
    change_state_none_trace]
  simp [is_write]

end Nifipy

namespace Nifipy

/-- A concrete server for the C4 witness: the controller service references
two processors, both currently RUNNING. -/
def c4_server : Server :=
  { info := fun url =>
      if url = "http://h:9090/nifi-api/controller-services/svc" then
        { id := "svc", name := "svc", state := "ENABLED", version := 7,
          referencingComponents := [("p1", "Processor"), ("p2", "Processor")] }
      else if url = "http://h:9090/nifi-api/processors/p1" then
        { id := "p1", name := "proc1", state := "RUNNING", version := 1,
          referencingComponents := [] }
      else
        { id := "p2", name := "proc2", state := "RUNNING", version := 2,
          referencingComponents := [] }
    status := fun _ _ => 200
    text := fun _ _ => ""
    listing := fun _ => []
    uploadText := fun _ => "" }

/-- Witness for C4 at a concrete input: restarting a service with two
RUNNING referencing processors writes stop to both, then disable and enable
of the service, then start to both, in that order. -/
theorem C4_witness :
    ((ControllerService.make { url_base := "http://h:9090" } "svc").restart
        c4_server).1.filter is_write =
      [Request.post "http://h:9090/nifi-api/processors/p1"
         (json_dumps_state { id := "p1", state := "STOPPED", version := 1 }),
       Request.post "http://h:9090/nifi-api/processors/p2"
         (json_dumps_state { id := "p2", state := "STOPPED", version := 2 }),
       Request.post "http://h:9090/nifi-api/controller-services/svc"
         (json_dumps_state { id := "svc", state := "DISABLED", version := 7 }),
       Request.post "http://h:9090/nifi-api/controller-services/svc"
         (json_dumps_state { id := "svc", state := "ENABLED", version := 7 }),
       Request.post "http://h:9090/nifi-api/processors/p1"
         (json_dumps_state { id := "p1", state := "RUNNING", version := 1 }),
       Request.post "http://h:9090/nifi-api/processors/p2"
         (json_dumps_state { id := "p2", state := "RUNNING", version := 2 })] := by
  have h := C4_restart_phase_order c4_server
    (ControllerService.make { url_base := "http://h:9090" } "svc") "p1" "p2"
    (by decide) (by decide) (by decide)
  exact h

/-- C10 (implicit): `upload_template` extracts the template id as the first
capture of the pattern `<id>(.*)</id>` in the response body; when the body
holds no match, the indexing `[0]` raises (a generic `IndexError`), and
otherwise the call returns a `Template` handle built from the first
match. -/
theorem C10_upload_template_first_match (srv : Server) (pg : ProcessGroup)
    (template_path : String) :
    (findall_ids (srv.uploadText (pg.url ++ "templates/upload")) = [] →
      (upload_template srv pg template_path).ret =
        Except.error "IndexError: list index out of range") ∧
    (∀ t ts, findall_ids (srv.uploadText (pg.url ++ "templates/upload")) = t :: ts →
      (upload_template srv pg template_path).ret =
        Except.ok (Template.make pg.nifi_connection t)) := by
  constructor
  · intro h
    show (match findall_ids (srv.uploadText (pg.url ++ "templates/upload")) with
      | [] => ({ ret := Except.error "IndexError: list index out of range",
                 trace := [Request.upload (pg.url ++ "templates/upload")
                   (basename template_path)], printed := [] } : PyResult Template)
      | t :: _ => { ret := Except.ok (Template.make pg.nifi_connection t),
                    trace := [Request.upload (pg.url ++ "templates/upload")
                      (basename template_path)], printed := [] }).ret = _
    rw [h]
  · intro t ts h
    show (match findall_ids (srv.uploadText (pg.url ++ "templates/upload")) with
      | [] => ({ ret := Except.error "IndexError: list index out of range",
                 trace := [Request.upload (pg.url ++ "templates/upload")
                   (basename template_path)], printed := [] } : PyResult Template)
      | t :: _ => { ret := Except.ok (Template.make pg.nifi_connection t),
                    trace := [Request.upload (pg.url ++ "templates/upload")
                      (basename template_path)], printed := [] }).ret = _
    rw [h]

/-- A concrete server whose template-upload response carries one id tag. -/
def c10_good_server : Server :=
  { info := fun _ =>
      { id := "x", name := "x", state := "STOPPED", version := 0,
        referencingComponents := [] }
    status := fun _ _ => 200
    text := fun _ _ => ""
    listing := fun _ => []
    uploadText := fun _ =>
      "<templateEntity><template><id>abc-123</id></template></templateEntity>" }

/-- Witness for C10 at a concrete input: the upload response body
`<templateEntity><template><id>abc-123</id></template></templateEntity>`
yields a `Template` handle with id `abc-123`. -/
theorem C10_witness :
    (upload_template c10_good_server
        (ProcessGroup.make { url_base := "http://h:9090" } "root") "/tmp/flow.xml").ret =
      Except.ok (Template.make { url_base := "http://h:9090" } "abc-123") :=
  (C10_upload_template_first_match c10_good_server
      (ProcessGroup.make { url_base := "http://h:9090" } "root") "/tmp/flow.xml").2
    "abc-123" [] (by decide)

end Nifipy
